import Mathlib

/-!
# Movement: directional step commands for two stepper axes

Shallow embedding of

* `DroneProject/runtest/movement.cpp`        (fast-profile variant),
* `Mining_Research/Reset/startPosition/movement.cpp` (default-profile variant),
* `Mining_Research/runtest/Movement.h`       (the `Movement` class declaration).

The four member functions are `void`, read and write the two global
`AccelStepper` objects `stepperY` / `stepperX`, read the global constant
`deltaSteps` and print one line on `Serial`.  They are embedded as state
transformers on a `World` that holds exactly those globals.
-/

namespace Movement

/-! ## C++ `long` arithmetic -/

/-- Interpretation of the C++ type `long`.

* `wrap32`: two's-complement values of 32 bits, results reduced modulo `2^32`
  into `[-2^31, 2^31)`; this is `long` on the Arduino targets.
* `wrap64`: the same with 64 bits, `long` on an LP64 host.
* `exact`: mathematical integers.  This is the idealised reading of the
  specification ("exact integer arithmetic"); the compiled code agrees with
  it only as long as no result leaves the range of `long`.

Properties of the code are stated for every interpretation, or with the
condition that the values involved are `long` values (`LongArith.fits`). -/
inductive LongArith
  | exact
  | wrap32
  | wrap64
  deriving DecidableEq, Repr

/-- Reduction of a mathematical result to a value of type `long`. -/
def LongArith.wrap : LongArith → Int → Int
  | .exact, x => x
  | .wrap32, x => (x + 2147483648) % 4294967296 - 2147483648
  | .wrap64, x => (x + 9223372036854775808) % 18446744073709551616 - 9223372036854775808

/-- The expression `a + b` on `long` operands. -/
def LongArith.add (A : LongArith) (a b : Int) : Int := A.wrap (a + b)

/-- The expression `a - b` on `long` operands. -/
def LongArith.sub (A : LongArith) (a b : Int) : Int := A.wrap (a - b)

/-- The expression `a * b` on `long` operands. -/
def LongArith.mul (A : LongArith) (a b : Int) : Int := A.wrap (a * b)

/-- The conversion of an `int` to `long`, written `(long)steps` in the
DroneProject variant and applied implicitly (usual arithmetic conversions of
`int * long`) in the Reset/startPosition variant.  It preserves the value. -/
def LongArith.ofInt (_A : LongArith) (steps : Int) : Int := steps

/-- A value is representable as a `long`. -/
def LongArith.fits (A : LongArith) (x : Int) : Prop := A.wrap x = x

instance (A : LongArith) (x : Int) : Decidable (A.fits x) := by
  unfold LongArith.fits; infer_instance

/-! ## The stepper driver (external `AccelStepper` library) -/

/-- A call received by a stepper driver. -/
inductive DriverCall
  | setMaxSpeed (speed : Int)
  | setAcceleration (acceleration : Int)
  | currentPosition
  | moveTo (absolute : Int)
  deriving DecidableEq, Repr

/-- The calls that change the driver (all but the `currentPosition` query). -/
def DriverCall.isMutating : DriverCall → Bool
  | .currentPosition => false
  | _ => true

/-- Modelled from the spec: the `AccelStepper` class is an external library
and is not part of the repository; only the four calls the repository makes
are modelled, following the consumed interface of §6 (`setMaxSpeed`,
`setAcceleration`, `currentPosition`, `moveTo`).  `currentPos` is the
position the driver reports, `targetPos` its commanded target, `maxSpeed`
and `acceleration` its motion limits.  `calls` records every call the driver
received, oldest first. -/
structure AccelStepper where
  currentPos : Int
  targetPos : Int
  maxSpeed : Int
  acceleration : Int
  calls : List DriverCall
  deriving DecidableEq, Repr

/-- Modelled from the spec: `setMaxSpeed(stepsPerSecond) -> void`. -/
def AccelStepper.setMaxSpeed (speed : Int) (s : AccelStepper) : AccelStepper :=
  { s with maxSpeed := speed, calls := s.calls ++ [DriverCall.setMaxSpeed speed] }

/-- Modelled from the spec: `setAcceleration(stepsPerSecondSquared) -> void`. -/
def AccelStepper.setAcceleration (acceleration : Int) (s : AccelStepper) : AccelStepper :=
  { s with acceleration := acceleration,
           calls := s.calls ++ [DriverCall.setAcceleration acceleration] }

/-- Modelled from the spec: `currentPosition() -> integer`; returns the
reported position together with the driver (whose call record grows). -/
def AccelStepper.currentPosition (s : AccelStepper) : Int × AccelStepper :=
  (s.currentPos, { s with calls := s.calls ++ [DriverCall.currentPosition] })

/-- Modelled from the spec: `moveTo(absoluteTarget) -> void`, non-blocking:
it commands a target and does not wait for arrival, so the reported position
is untouched. -/
def AccelStepper.moveTo (absolute : Int) (s : AccelStepper) : AccelStepper :=
  { s with targetPos := absolute, calls := s.calls ++ [DriverCall.moveTo absolute] }

/-- Modelled from the spec: the driver finishes its motion, that is, the
reported position becomes the commanded target (§6: the driver owns the
actual motion execution). -/
def AccelStepper.arrive (s : AccelStepper) : AccelStepper :=
  { s with currentPos := s.targetPos }

/-! ## Global state -/

/-- The globals the member functions touch: `extern AccelStepper stepperY`,
`extern AccelStepper stepperX`, and the lines printed on `Serial`. -/
structure World where
  stepperY : AccelStepper
  stepperX : AccelStepper
  serial : List String
  deriving DecidableEq, Repr

/-- The statement `Serial.println(line);`. -/
def Serial.println (line : String) (w : World) : World :=
  { w with serial := w.serial ++ [line] }

/-! ## `DroneProject/runtest/movement.cpp` -/

/-- The function `static inline void applyFastProfile(AccelStepper &s)`. -/
def applyFastProfile (s : AccelStepper) : AccelStepper :=
  AccelStepper.setAcceleration 20000 (AccelStepper.setMaxSpeed 4000 s)

/-- The function `void Movement::moveYDown(int steps)` of the DroneProject variant. -/
def DroneProject.moveYDown (A : LongArith) (deltaSteps : Int) (steps : Int) (w : World) :
    World :=
  let w1 : World := { w with stepperY := applyFastProfile w.stepperY }
  let r := AccelStepper.currentPosition w1.stepperY
  let target := A.add r.1 (A.mul (A.ofInt steps) deltaSteps)
  let w2 : World := { w1 with stepperY := AccelStepper.moveTo target r.2 }
  Serial.println "Command: DOWN" w2

/-- The function `void Movement::moveYUp(int steps)` of the DroneProject variant. -/
def DroneProject.moveYUp (A : LongArith) (deltaSteps : Int) (steps : Int) (w : World) :
    World :=
  let w1 : World := { w with stepperY := applyFastProfile w.stepperY }
  let r := AccelStepper.currentPosition w1.stepperY
  let target := A.sub r.1 (A.mul (A.ofInt steps) deltaSteps)
  let w2 : World := { w1 with stepperY := AccelStepper.moveTo target r.2 }
  Serial.println "Command: UP" w2

/-- The function `void Movement::moveXLeft(int steps)` of the DroneProject variant. -/
def DroneProject.moveXLeft (A : LongArith) (deltaSteps : Int) (steps : Int) (w : World) :
    World :=
  let w1 : World := { w with stepperX := applyFastProfile w.stepperX }
  let r := AccelStepper.currentPosition w1.stepperX
  let target := A.add r.1 (A.mul (A.ofInt steps) deltaSteps)
  let w2 : World := { w1 with stepperX := AccelStepper.moveTo target r.2 }
  Serial.println "Command: LEFT" w2

/-- The function `void Movement::moveXRight(int steps)` of the DroneProject variant. -/
def DroneProject.moveXRight (A : LongArith) (deltaSteps : Int) (steps : Int) (w : World) :
    World :=
  let w1 : World := { w with stepperX := applyFastProfile w.stepperX }
  let r := AccelStepper.currentPosition w1.stepperX
  let target := A.sub r.1 (A.mul (A.ofInt steps) deltaSteps)
  let w2 : World := { w1 with stepperX := AccelStepper.moveTo target r.2 }
  Serial.println "Command: RIGHT" w2

/-! ## `Mining_Research/Reset/startPosition/movement.cpp` -/

/-- The function `void Movement::moveYDown(int steps)` of the Reset/startPosition variant. -/
def Reset.moveYDown (A : LongArith) (deltaSteps : Int) (steps : Int) (w : World) : World :=
  let r := AccelStepper.currentPosition w.stepperY
  let w1 : World :=
    { w with stepperY :=
        AccelStepper.moveTo (A.add r.1 (A.mul (A.ofInt steps) deltaSteps)) r.2 }
  Serial.println "Command: DOWN" w1

/-- The function `void Movement::moveYUp(int steps)` of the Reset/startPosition variant. -/
def Reset.moveYUp (A : LongArith) (deltaSteps : Int) (steps : Int) (w : World) : World :=
  let r := AccelStepper.currentPosition w.stepperY
  let w1 : World :=
    { w with stepperY :=
        AccelStepper.moveTo (A.sub r.1 (A.mul (A.ofInt steps) deltaSteps)) r.2 }
  Serial.println "Command: UP" w1

/-- The function `void Movement::moveXLeft(int steps)` of the Reset/startPosition variant. -/
def Reset.moveXLeft (A : LongArith) (deltaSteps : Int) (steps : Int) (w : World) : World :=
  let r := AccelStepper.currentPosition w.stepperX
  let w1 : World :=
    { w with stepperX :=
        AccelStepper.moveTo (A.add r.1 (A.mul (A.ofInt steps) deltaSteps)) r.2 }
  Serial.println "Command: LEFT" w1

/-- The function `void Movement::moveXRight(int steps)` of the Reset/startPosition variant. -/
def Reset.moveXRight (A : LongArith) (deltaSteps : Int) (steps : Int) (w : World) : World :=
  let r := AccelStepper.currentPosition w.stepperX
  let w1 : World :=
    { w with stepperX :=
        AccelStepper.moveTo (A.sub r.1 (A.mul (A.ofInt steps) deltaSteps)) r.2 }
  Serial.println "Command: RIGHT" w1

/-! ## Calling the operations -/

/-- The two copies of `movement.cpp`. -/
inductive Variant
  | droneProject
  | resetStartPosition
  deriving DecidableEq, Repr

/-- The four member functions defined in both copies. -/
inductive Op
  | moveYDown
  | moveYUp
  | moveXLeft
  | moveXRight
  deriving DecidableEq, Repr

/-- The two stepper axes. -/
inductive Axis
  | Y
  | X
  deriving DecidableEq, Repr

/-- The axis whose driver a member function addresses. -/
def Op.axis : Op → Axis
  | .moveYDown => .Y
  | .moveYUp => .Y
  | .moveXLeft => .X
  | .moveXRight => .X

/-- The sign with which a member function applies `steps * deltaSteps` to the
reported position: `+` in `moveYDown` / `moveXLeft`, `-` in `moveYUp` /
`moveXRight`. -/
def Op.sign : Op → Int
  | .moveYDown => 1
  | .moveYUp => -1
  | .moveXLeft => 1
  | .moveXRight => -1

/-- The global driver object of an axis. -/
def World.stepper (w : World) : Axis → AccelStepper
  | .Y => w.stepperY
  | .X => w.stepperX

/-- Run member function `op` of copy `v` with argument `steps`. -/
def exec (v : Variant) (A : LongArith) (deltaSteps : Int) (op : Op) (steps : Int)
    (w : World) : World :=
  match v, op with
  | .droneProject, .moveYDown => DroneProject.moveYDown A deltaSteps steps w
  | .droneProject, .moveYUp => DroneProject.moveYUp A deltaSteps steps w
  | .droneProject, .moveXLeft => DroneProject.moveXLeft A deltaSteps steps w
  | .droneProject, .moveXRight => DroneProject.moveXRight A deltaSteps steps w
  | .resetStartPosition, .moveYDown => Reset.moveYDown A deltaSteps steps w
  | .resetStartPosition, .moveYUp => Reset.moveYUp A deltaSteps steps w
  | .resetStartPosition, .moveXLeft => Reset.moveXLeft A deltaSteps steps w
  | .resetStartPosition, .moveXRight => Reset.moveXRight A deltaSteps steps w

/-- The calls a driver received between two of its states. -/
def issued (before after : AccelStepper) : List DriverCall :=
  after.calls.drop before.calls.length

/-- The world in which the driver of the Y axis has finished its motion. -/
def World.arriveY (w : World) : World :=
  { w with stepperY := AccelStepper.arrive w.stepperY }

/-- The world in which the driver of the X axis has finished its motion. -/
def World.arriveX (w : World) : World :=
  { w with stepperX := AccelStepper.arrive w.stepperX }

/-! ## Runs in which a driver call may raise a fault

The member functions contain no `try`, no `return` and no test of their
argument or of a driver result.  A fault raised by a driver call therefore
leaves the function at that call: the statements before it have taken effect
on the globals, the statements after it do not run, and the fault reaches the
caller. -/

/-- Modelled from the spec: the error taxonomy of §7.  No such type exists in
the repository. -/
inductive MoveError
  | invalidArgument
  | unknownAxis
  | driverFault
  deriving DecidableEq, Repr

/-- Modelled from the spec: which driver raises a fault when `moveTo` is
called on it (§7 `DriverFault`, "underlying driver call fails"; §8, "driver
raises a fault during `moveTo`").  The `AccelStepper` library has no such
input; with both fields `false` the drivers behave as the library does. -/
structure Faults where
  stepperY : Bool
  stepperX : Bool
  deriving DecidableEq, Repr

/-- No driver raises. -/
def noFaults : Faults := { stepperY := false, stepperX := false }

/-- The globals at the point a member function is left, and the fault that
left it, if any (`none`: the function ran to its end). -/
structure Run where
  world : World
  raised : Option MoveError
  deriving DecidableEq, Repr

/-- A statement sequence that has completed. -/
def Run.ok (w : World) : Run := { world := w, raised := none }

/-- Sequencing: the rest of the body runs on the globals reached so far,
unless a fault is being raised, which skips it. -/
def Run.next (r : Run) (rest : World → Run) : Run :=
  match r.raised with
  | none => rest r.world
  | some e => { world := r.world, raised := some e }

/-- Modelled from the spec: `moveTo` on a driver that may raise.  A raising
driver receives the call, does not take the target, and raises `DriverFault`;
otherwise the call is `AccelStepper.moveTo`. -/
def AccelStepper.moveToOrRaise (raises : Bool) (absolute : Int) (s : AccelStepper) :
    AccelStepper × Option MoveError :=
  if raises then
    ({ s with calls := s.calls ++ [DriverCall.moveTo absolute] }, some MoveError.driverFault)
  else
    (AccelStepper.moveTo absolute s, none)

/-- The function `void Movement::moveYDown(int steps)` of the DroneProject
variant, with a Y driver that may raise in `moveTo`. -/
def DroneProject.moveYDownRun (f : Faults) (A : LongArith) (deltaSteps : Int) (steps : Int)
    (w : World) : Run :=
  let w1 : World := { w with stepperY := applyFastProfile w.stepperY }
  let r := AccelStepper.currentPosition w1.stepperY
  let target := A.add r.1 (A.mul (A.ofInt steps) deltaSteps)
  let m := AccelStepper.moveToOrRaise f.stepperY target r.2
  Run.next { world := { w1 with stepperY := m.1 }, raised := m.2 }
    (fun w2 => Run.ok (Serial.println "Command: DOWN" w2))

/-- The function `void Movement::moveYUp(int steps)` of the DroneProject
variant, with a Y driver that may raise in `moveTo`. -/
def DroneProject.moveYUpRun (f : Faults) (A : LongArith) (deltaSteps : Int) (steps : Int)
    (w : World) : Run :=
  let w1 : World := { w with stepperY := applyFastProfile w.stepperY }
  let r := AccelStepper.currentPosition w1.stepperY
  let target := A.sub r.1 (A.mul (A.ofInt steps) deltaSteps)
  let m := AccelStepper.moveToOrRaise f.stepperY target r.2
  Run.next { world := { w1 with stepperY := m.1 }, raised := m.2 }
    (fun w2 => Run.ok (Serial.println "Command: UP" w2))

/-- The function `void Movement::moveXLeft(int steps)` of the DroneProject
variant, with an X driver that may raise in `moveTo`. -/
def DroneProject.moveXLeftRun (f : Faults) (A : LongArith) (deltaSteps : Int) (steps : Int)
    (w : World) : Run :=
  let w1 : World := { w with stepperX := applyFastProfile w.stepperX }
  let r := AccelStepper.currentPosition w1.stepperX
  let target := A.add r.1 (A.mul (A.ofInt steps) deltaSteps)
  let m := AccelStepper.moveToOrRaise f.stepperX target r.2
  Run.next { world := { w1 with stepperX := m.1 }, raised := m.2 }
    (fun w2 => Run.ok (Serial.println "Command: LEFT" w2))

/-- The function `void Movement::moveXRight(int steps)` of the DroneProject
variant, with an X driver that may raise in `moveTo`. -/
def DroneProject.moveXRightRun (f : Faults) (A : LongArith) (deltaSteps : Int) (steps : Int)
    (w : World) : Run :=
  let w1 : World := { w with stepperX := applyFastProfile w.stepperX }
  let r := AccelStepper.currentPosition w1.stepperX
  let target := A.sub r.1 (A.mul (A.ofInt steps) deltaSteps)
  let m := AccelStepper.moveToOrRaise f.stepperX target r.2
  Run.next { world := { w1 with stepperX := m.1 }, raised := m.2 }
    (fun w2 => Run.ok (Serial.println "Command: RIGHT" w2))

/-- The function `void Movement::moveYDown(int steps)` of the
Reset/startPosition variant, with a Y driver that may raise in `moveTo`. -/
def Reset.moveYDownRun (f : Faults) (A : LongArith) (deltaSteps : Int) (steps : Int)
    (w : World) : Run :=
  let r := AccelStepper.currentPosition w.stepperY
  let m := AccelStepper.moveToOrRaise f.stepperY
    (A.add r.1 (A.mul (A.ofInt steps) deltaSteps)) r.2
  Run.next { world := { w with stepperY := m.1 }, raised := m.2 }
    (fun w1 => Run.ok (Serial.println "Command: DOWN" w1))

/-- The function `void Movement::moveYUp(int steps)` of the
Reset/startPosition variant, with a Y driver that may raise in `moveTo`. -/
def Reset.moveYUpRun (f : Faults) (A : LongArith) (deltaSteps : Int) (steps : Int)
    (w : World) : Run :=
  let r := AccelStepper.currentPosition w.stepperY
  let m := AccelStepper.moveToOrRaise f.stepperY
    (A.sub r.1 (A.mul (A.ofInt steps) deltaSteps)) r.2
  Run.next { world := { w with stepperY := m.1 }, raised := m.2 }
    (fun w1 => Run.ok (Serial.println "Command: UP" w1))

/-- The function `void Movement::moveXLeft(int steps)` of the
Reset/startPosition variant, with an X driver that may raise in `moveTo`. -/
def Reset.moveXLeftRun (f : Faults) (A : LongArith) (deltaSteps : Int) (steps : Int)
    (w : World) : Run :=
  let r := AccelStepper.currentPosition w.stepperX
  let m := AccelStepper.moveToOrRaise f.stepperX
    (A.add r.1 (A.mul (A.ofInt steps) deltaSteps)) r.2
  Run.next { world := { w with stepperX := m.1 }, raised := m.2 }
    (fun w1 => Run.ok (Serial.println "Command: LEFT" w1))

/-- The function `void Movement::moveXRight(int steps)` of the
Reset/startPosition variant, with an X driver that may raise in `moveTo`. -/
def Reset.moveXRightRun (f : Faults) (A : LongArith) (deltaSteps : Int) (steps : Int)
    (w : World) : Run :=
  let r := AccelStepper.currentPosition w.stepperX
  let m := AccelStepper.moveToOrRaise f.stepperX
    (A.sub r.1 (A.mul (A.ofInt steps) deltaSteps)) r.2
  Run.next { world := { w with stepperX := m.1 }, raised := m.2 }
    (fun w1 => Run.ok (Serial.println "Command: RIGHT" w1))

/-- Run member function `op` of copy `v` with drivers that may raise. -/
def execRun (f : Faults) (v : Variant) (A : LongArith) (deltaSteps : Int) (op : Op)
    (steps : Int) (w : World) : Run :=
  match v, op with
  | .droneProject, .moveYDown => DroneProject.moveYDownRun f A deltaSteps steps w
  | .droneProject, .moveYUp => DroneProject.moveYUpRun f A deltaSteps steps w
  | .droneProject, .moveXLeft => DroneProject.moveXLeftRun f A deltaSteps steps w
  | .droneProject, .moveXRight => DroneProject.moveXRightRun f A deltaSteps steps w
  | .resetStartPosition, .moveYDown => Reset.moveYDownRun f A deltaSteps steps w
  | .resetStartPosition, .moveYUp => Reset.moveYUpRun f A deltaSteps steps w
  | .resetStartPosition, .moveXLeft => Reset.moveXLeftRun f A deltaSteps steps w
  | .resetStartPosition, .moveXRight => Reset.moveXRightRun f A deltaSteps steps w

/-! ## Sample states -/

/-- A driver at rest at position `p` with limits 1000 / 500 and no call yet. -/
def restingAt (p : Int) : AccelStepper :=
  { currentPos := p, targetPos := p, maxSpeed := 1000, acceleration := 500, calls := [] }

/-- Drivers at rest: Y at 1000, X at -500. -/
def sampleWorld : World :=
  { stepperY := restingAt 1000, stepperX := restingAt (-500), serial := [] }

/-- Drivers at rest, the Y driver at the largest 32-bit `long`. -/
def edgeWorld : World :=
  { stepperY := restingAt 2147483647, stepperX := restingAt (-500), serial := [] }

end Movement

namespace Movement

/-! ## Basic facts about `long` arithmetic and the operations -/

theorem wrap32_of_range (x : Int) (hlo : -2147483648 ≤ x) (hhi : x < 2147483648) :
    LongArith.wrap32.wrap x = x := by
  simp only [LongArith.wrap]
  omega

theorem wrap32_range (x : Int) :
    -2147483648 ≤ LongArith.wrap32.wrap x ∧ LongArith.wrap32.wrap x < 2147483648 := by
  simp only [LongArith.wrap]
  omega

theorem wrap_add_sub_cancel (A : LongArith) (p x : Int) (hp : A.fits p) :
    A.wrap (A.wrap (p + x) - x) = p := by
  cases A
  · simp [LongArith.wrap]
  · simp only [LongArith.fits, LongArith.wrap] at hp ⊢
    omega
  · simp only [LongArith.fits, LongArith.wrap] at hp ⊢
    omega

theorem wrap_sub_add_cancel (A : LongArith) (p x : Int) (hp : A.fits p) :
    A.wrap (A.wrap (p - x) + x) = p := by
  cases A
  · simp [LongArith.wrap]
  · simp only [LongArith.fits, LongArith.wrap] at hp ⊢
    omega
  · simp only [LongArith.fits, LongArith.wrap] at hp ⊢
    omega

theorem add_of_fits (A : LongArith) (p n d : Int) (hmul : A.fits (n * d))
    (hadd : A.fits (p + n * d)) : A.add p (A.mul n d) = p + n * d := by
  unfold LongArith.fits at hmul hadd
  rw [LongArith.add, LongArith.mul, hmul, hadd]

theorem sub_of_fits (A : LongArith) (p n d : Int) (hmul : A.fits (n * d))
    (hsub : A.fits (p - n * d)) : A.sub p (A.mul n d) = p - n * d := by
  unfold LongArith.fits at hmul hsub
  rw [LongArith.sub, LongArith.mul, hmul, hsub]

theorem exec_currentPos (v : Variant) (A : LongArith) (op : Op) (d n : Int) (w : World)
    (ax : Axis) : ((exec v A d op n w).stepper ax).currentPos = (w.stepper ax).currentPos := by
  cases v <;> cases op <;> cases ax <;>
    simp [exec, World.stepper, DroneProject.moveYDown,
      DroneProject.moveYUp, DroneProject.moveXLeft, DroneProject.moveXRight,
      Reset.moveYDown, Reset.moveYUp, Reset.moveXLeft, Reset.moveXRight,
      applyFastProfile, AccelStepper.setMaxSpeed, AccelStepper.setAcceleration,
      AccelStepper.currentPosition, AccelStepper.moveTo, Serial.println]

/-- When no driver raises, a run is the plain execution of the member
function and ends without a fault. -/
theorem execRun_noFaults (v : Variant) (A : LongArith) (op : Op) (d n : Int) (w : World) :
    execRun noFaults v A d op n w = Run.ok (exec v A d op n w) := by
  cases v <;> cases op <;> rfl

/-! ## C1: targets are computed from the position the driver reports -/

/-- C1, counterexample. With a 32-bit `long`, `deltaSteps = 200` and the Y
driver reporting `p = 2147483647`, `moveYDown(3)` does not command
`moveTo(p + 3 * 200) = moveTo(2147484247)`: the sum overflows and the call
received is `moveTo(-2147483049)`, in both copies. -/
theorem C1_overflow_counterexample :
    edgeWorld.stepperY.currentPos = 2147483647
    ∧ issued edgeWorld.stepperY (Reset.moveYDown .wrap32 200 3 edgeWorld).stepperY
        = [.currentPosition, .moveTo (-2147483049)]
    ∧ issued edgeWorld.stepperY (DroneProject.moveYDown .wrap32 200 3 edgeWorld).stepperY
        = [.setMaxSpeed 4000, .setAcceleration 20000, .currentPosition,
           .moveTo (-2147483049)]
    ∧ issued edgeWorld.stepperY (Reset.moveYDown .wrap32 200 3 edgeWorld).stepperY
        ≠ [.currentPosition, .moveTo (edgeWorld.stepperY.currentPos + 3 * 200)]
    ∧ issued edgeWorld.stepperY (DroneProject.moveYDown .wrap32 200 3 edgeWorld).stepperY
        ≠ [.setMaxSpeed 4000, .setAcceleration 20000, .currentPosition,
           .moveTo (edgeWorld.stepperY.currentPos + 3 * 200)] := by
  refine ⟨?_, ?_, ?_, ?_, ?_⟩ <;> decide

/-- C1, amended. In every interpretation of `long`, for every reported
position `p`, every step count `n ≥ 0` and every `deltaSteps = d > 0` such
that `n * d` is a `long` value, in both copies: if `p + n * d` is a `long`
value, `moveYDown n` / `moveXLeft n` query `currentPosition()` on their own
driver and then call `moveTo (p + n * d)` on it; if `p - n * d` is a `long`
value, `moveYUp n` / `moveXRight n` query it and then call
`moveTo (p - n * d)`.  The lists are all the calls the driver receives during
the operation, in order.  (In exact arithmetic the conditions always hold.) -/
theorem C1_moveTo_target_when_no_overflow (A : LongArith) (d n : Int) (w : World)
    (_hn : 0 ≤ n) (_hd : 0 < d) (hmul : A.fits (n * d)) :
    (A.fits (w.stepperY.currentPos + n * d) →
      issued w.stepperY (DroneProject.moveYDown A d n w).stepperY
        = [.setMaxSpeed 4000, .setAcceleration 20000, .currentPosition,
           .moveTo (w.stepperY.currentPos + n * d)])
    ∧ (A.fits (w.stepperY.currentPos - n * d) →
      issued w.stepperY (DroneProject.moveYUp A d n w).stepperY
        = [.setMaxSpeed 4000, .setAcceleration 20000, .currentPosition,
           .moveTo (w.stepperY.currentPos - n * d)])
    ∧ (A.fits (w.stepperX.currentPos + n * d) →
      issued w.stepperX (DroneProject.moveXLeft A d n w).stepperX
        = [.setMaxSpeed 4000, .setAcceleration 20000, .currentPosition,
           .moveTo (w.stepperX.currentPos + n * d)])
    ∧ (A.fits (w.stepperX.currentPos - n * d) →
      issued w.stepperX (DroneProject.moveXRight A d n w).stepperX
        = [.setMaxSpeed 4000, .setAcceleration 20000, .currentPosition,
           .moveTo (w.stepperX.currentPos - n * d)])
    ∧ (A.fits (w.stepperY.currentPos + n * d) →
      issued w.stepperY (Reset.moveYDown A d n w).stepperY
        = [.currentPosition, .moveTo (w.stepperY.currentPos + n * d)])
    ∧ (A.fits (w.stepperY.currentPos - n * d) →
      issued w.stepperY (Reset.moveYUp A d n w).stepperY
        = [.currentPosition, .moveTo (w.stepperY.currentPos - n * d)])
    ∧ (A.fits (w.stepperX.currentPos + n * d) →
      issued w.stepperX (Reset.moveXLeft A d n w).stepperX
        = [.currentPosition, .moveTo (w.stepperX.currentPos + n * d)])
    ∧ (A.fits (w.stepperX.currentPos - n * d) →
      issued w.stepperX (Reset.moveXRight A d n w).stepperX
        = [.currentPosition, .moveTo (w.stepperX.currentPos - n * d)]) := by
  refine ⟨?_, ?_, ?_, ?_, ?_, ?_, ?_, ?_⟩ <;> intro h
  · have e := add_of_fits A _ n d hmul h
    simp [issued, DroneProject.moveYDown, applyFastProfile, AccelStepper.setMaxSpeed,
      AccelStepper.setAcceleration, AccelStepper.currentPosition, AccelStepper.moveTo,
      Serial.println, LongArith.ofInt, e]
  · have e := sub_of_fits A _ n d hmul h
    simp [issued, DroneProject.moveYUp, applyFastProfile, AccelStepper.setMaxSpeed,
      AccelStepper.setAcceleration, AccelStepper.currentPosition, AccelStepper.moveTo,
      Serial.println, LongArith.ofInt, e]
  · have e := add_of_fits A _ n d hmul h
    simp [issued, DroneProject.moveXLeft, applyFastProfile, AccelStepper.setMaxSpeed,
      AccelStepper.setAcceleration, AccelStepper.currentPosition, AccelStepper.moveTo,
      Serial.println, LongArith.ofInt, e]
  · have e := sub_of_fits A _ n d hmul h
    simp [issued, DroneProject.moveXRight, applyFastProfile, AccelStepper.setMaxSpeed,
      AccelStepper.setAcceleration, AccelStepper.currentPosition, AccelStepper.moveTo,
      Serial.println, LongArith.ofInt, e]
  · have e := add_of_fits A _ n d hmul h
    simp [issued, Reset.moveYDown, AccelStepper.currentPosition, AccelStepper.moveTo,
      Serial.println, LongArith.ofInt, e]
  · have e := sub_of_fits A _ n d hmul h
    simp [issued, Reset.moveYUp, AccelStepper.currentPosition, AccelStepper.moveTo,
      Serial.println, LongArith.ofInt, e]
  · have e := add_of_fits A _ n d hmul h
    simp [issued, Reset.moveXLeft, AccelStepper.currentPosition, AccelStepper.moveTo,
      Serial.println, LongArith.ofInt, e]
  · have e := sub_of_fits A _ n d hmul h
    simp [issued, Reset.moveXRight, AccelStepper.currentPosition, AccelStepper.moveTo,
      Serial.println, LongArith.ofInt, e]

/-- C1, amended, instance with a 32-bit `long` and `deltaSteps = 200`: from
`sampleWorld` (Y reports 1000) `moveYDown(3)` of the DroneProject copy ends
with `moveTo 1600`; from `edgeWorld` (Y reports 2147483647) `moveYUp(3)` of
the Reset/startPosition copy ends with `moveTo 2147483047`. -/
theorem C1_moveTo_target_witness :
    (0 : Int) ≤ 3 ∧ (0 : Int) < 200 ∧ LongArith.wrap32.fits (3 * 200) ∧
    issued sampleWorld.stepperY (DroneProject.moveYDown .wrap32 200 3 sampleWorld).stepperY
      = [.setMaxSpeed 4000, .setAcceleration 20000, .currentPosition, .moveTo 1600] ∧
    issued edgeWorld.stepperY (Reset.moveYUp .wrap32 200 3 edgeWorld).stepperY
      = [.currentPosition, .moveTo 2147483047] :=
  ⟨by decide, by decide, by decide,
    (C1_moveTo_target_when_no_overflow .wrap32 200 3 sampleWorld (by decide) (by decide)
      (by decide)).1 (by decide),
    (C1_moveTo_target_when_no_overflow .wrap32 200 3 edgeWorld (by decide) (by decide)
      (by decide)).2.2.2.2.2.1 (by decide)⟩

/-! ## C2: negative step counts -/

/-- C2, counterexample. `moveYDown(-1)` of the Reset/startPosition copy, with
`deltaSteps = 200` and the Y driver reporting 1000, does not fail with
`InvalidArgument`: the function runs to its end, the driver receives
`currentPosition()` and `moveTo(800)`, and its target changes from 1000 to
800. -/
theorem C2_negative_steps_counterexample :
    (Reset.moveYDownRun noFaults .wrap32 200 (-1) sampleWorld).raised = none
    ∧ (Reset.moveYDownRun noFaults .wrap32 200 (-1) sampleWorld).raised
        ≠ some MoveError.invalidArgument
    ∧ issued sampleWorld.stepperY
        (Reset.moveYDownRun noFaults .wrap32 200 (-1) sampleWorld).world.stepperY
        = [.currentPosition, .moveTo 800]
    ∧ sampleWorld.stepperY.targetPos = 1000
    ∧ (Reset.moveYDownRun noFaults .wrap32 200 (-1) sampleWorld).world.stepperY.targetPos
        = 800 := by
  refine ⟨?_, ?_, ?_, ?_, ?_⟩ <;> decide

/-- C2, amended. In every interpretation of `long`, for every negative step
count `n`, each of the eight member functions runs to its end without raising
anything and does exactly what its body says for any count: the DroneProject
functions set the limits 4000 / 20000, every function queries
`currentPosition()` and calls `moveTo t` with `t = p + n * d` (`moveYDown`,
`moveXLeft`) or `t = p - n * d` (`moveYUp`, `moveXRight`) evaluated in `long`
arithmetic, the driver's target becomes `t`, the line is printed, and nothing
else changes (the other driver, the reported position, and in the
Reset/startPosition copy the limits, are as before).  Whenever `n * d` and
the sum or difference are `long` values, `t` is exactly that integer. -/
theorem C2_negative_steps_run_like_any_count (A : LongArith) (d n : Int) (w : World)
    (_hn : n < 0) :
    DroneProject.moveYDownRun noFaults A d n w
        = { world :=
            { stepperY := { w.stepperY with
                maxSpeed := 4000, acceleration := 20000,
                targetPos := A.add w.stepperY.currentPos (A.mul n d),
                calls := w.stepperY.calls ++
                  [.setMaxSpeed 4000, .setAcceleration 20000, .currentPosition,
                   .moveTo (A.add w.stepperY.currentPos (A.mul n d))] },
              stepperX := w.stepperX,
              serial := w.serial ++ ["Command: DOWN"] },
            raised := none }
    ∧ DroneProject.moveYUpRun noFaults A d n w
        = { world :=
            { stepperY := { w.stepperY with
                maxSpeed := 4000, acceleration := 20000,
                targetPos := A.sub w.stepperY.currentPos (A.mul n d),
                calls := w.stepperY.calls ++
                  [.setMaxSpeed 4000, .setAcceleration 20000, .currentPosition,
                   .moveTo (A.sub w.stepperY.currentPos (A.mul n d))] },
              stepperX := w.stepperX,
              serial := w.serial ++ ["Command: UP"] },
            raised := none }
    ∧ DroneProject.moveXLeftRun noFaults A d n w
        = { world :=
            { stepperY := w.stepperY,
              stepperX := { w.stepperX with
                maxSpeed := 4000, acceleration := 20000,
                targetPos := A.add w.stepperX.currentPos (A.mul n d),
                calls := w.stepperX.calls ++
                  [.setMaxSpeed 4000, .setAcceleration 20000, .currentPosition,
                   .moveTo (A.add w.stepperX.currentPos (A.mul n d))] },
              serial := w.serial ++ ["Command: LEFT"] },
            raised := none }
    ∧ DroneProject.moveXRightRun noFaults A d n w
        = { world :=
            { stepperY := w.stepperY,
              stepperX := { w.stepperX with
                maxSpeed := 4000, acceleration := 20000,
                targetPos := A.sub w.stepperX.currentPos (A.mul n d),
                calls := w.stepperX.calls ++
                  [.setMaxSpeed 4000, .setAcceleration 20000, .currentPosition,
                   .moveTo (A.sub w.stepperX.currentPos (A.mul n d))] },
              serial := w.serial ++ ["Command: RIGHT"] },
            raised := none }
    ∧ Reset.moveYDownRun noFaults A d n w
        = { world :=
            { stepperY := { w.stepperY with
                targetPos := A.add w.stepperY.currentPos (A.mul n d),
                calls := w.stepperY.calls ++
                  [.currentPosition, .moveTo (A.add w.stepperY.currentPos (A.mul n d))] },
              stepperX := w.stepperX,
              serial := w.serial ++ ["Command: DOWN"] },
            raised := none }
    ∧ Reset.moveYUpRun noFaults A d n w
        = { world :=
            { stepperY := { w.stepperY with
                targetPos := A.sub w.stepperY.currentPos (A.mul n d),
                calls := w.stepperY.calls ++
                  [.currentPosition, .moveTo (A.sub w.stepperY.currentPos (A.mul n d))] },
              stepperX := w.stepperX,
              serial := w.serial ++ ["Command: UP"] },
            raised := none }
    ∧ Reset.moveXLeftRun noFaults A d n w
        = { world :=
            { stepperY := w.stepperY,
              stepperX := { w.stepperX with
                targetPos := A.add w.stepperX.currentPos (A.mul n d),
                calls := w.stepperX.calls ++
                  [.currentPosition, .moveTo (A.add w.stepperX.currentPos (A.mul n d))] },
              serial := w.serial ++ ["Command: LEFT"] },
            raised := none }
    ∧ Reset.moveXRightRun noFaults A d n w
        = { world :=
            { stepperY := w.stepperY,
              stepperX := { w.stepperX with
                targetPos := A.sub w.stepperX.currentPos (A.mul n d),
                calls := w.stepperX.calls ++
                  [.currentPosition, .moveTo (A.sub w.stepperX.currentPos (A.mul n d))] },
              serial := w.serial ++ ["Command: RIGHT"] },
            raised := none }
    ∧ (A.fits (n * d) → A.fits (w.stepperY.currentPos + n * d) →
        A.add w.stepperY.currentPos (A.mul n d) = w.stepperY.currentPos + n * d)
    ∧ (A.fits (n * d) → A.fits (w.stepperY.currentPos - n * d) →
        A.sub w.stepperY.currentPos (A.mul n d) = w.stepperY.currentPos - n * d)
    ∧ (A.fits (n * d) → A.fits (w.stepperX.currentPos + n * d) →
        A.add w.stepperX.currentPos (A.mul n d) = w.stepperX.currentPos + n * d)
    ∧ (A.fits (n * d) → A.fits (w.stepperX.currentPos - n * d) →
        A.sub w.stepperX.currentPos (A.mul n d) = w.stepperX.currentPos - n * d) := by
  refine ⟨?_, ?_, ?_, ?_, ?_, ?_, ?_, ?_, add_of_fits A _ n d, sub_of_fits A _ n d,
    add_of_fits A _ n d, sub_of_fits A _ n d⟩ <;>
    simp [DroneProject.moveYDownRun, DroneProject.moveYUpRun, DroneProject.moveXLeftRun,
      DroneProject.moveXRightRun, Reset.moveYDownRun, Reset.moveYUpRun,
      Reset.moveXLeftRun, Reset.moveXRightRun, noFaults, Run.next, Run.ok,
      AccelStepper.moveToOrRaise, applyFastProfile, AccelStepper.setMaxSpeed,
      AccelStepper.setAcceleration, AccelStepper.currentPosition, AccelStepper.moveTo,
      Serial.println, LongArith.ofInt]

/-- C2, amended, instance with a 32-bit `long`: `moveXRight(-2)` of the
DroneProject copy from `sampleWorld` (X reports -500, limits 1000 / 500,
`deltaSteps = 200`) runs to its end and leaves the X driver with limits
4000 / 20000 and target `-500 - (-2 * 200) = -100`. -/
theorem C2_negative_steps_witness :
    (-2 : Int) < 0 ∧
    DroneProject.moveXRightRun noFaults .wrap32 200 (-2) sampleWorld
      = { world :=
            { stepperY := restingAt 1000,
              stepperX :=
                { currentPos := -500, targetPos := -100, maxSpeed := 4000,
                  acceleration := 20000,
                  calls := [.setMaxSpeed 4000, .setAcceleration 20000, .currentPosition,
                            .moveTo (-100)] },
              serial := ["Command: RIGHT"] },
          raised := none } :=
  ⟨by decide,
    (C2_negative_steps_run_like_any_count .wrap32 200 (-2) sampleWorld
      (by decide)).2.2.2.1⟩

/-! ## C3: the fast profile precedes the move (DroneProject copy) -/

/-- C3. In the DroneProject copy, for every state, every step count `n ≥ 0`,
every `deltaSteps = d` and every interpretation of `long`, the mutating calls
an operation issues to its axis driver are exactly `setMaxSpeed(4000)`, then
`setAcceleration(20000)`, then `moveTo(target)` with
`target = p + n * d` (`moveYDown`, `moveXLeft`) or `p - n * d` (`moveYUp`,
`moveXRight`) in `long` arithmetic; and when the Y driver reports 1000 and
`d = 200`, `moveYUp(3)` issues `setMaxSpeed(4000)`, `setAcceleration(20000)`,
`moveTo(400)`. -/
theorem C3_fast_profile_then_moveTo (A : LongArith) (d n : Int) (w : World) (_hn : 0 ≤ n) :
    (issued w.stepperY (DroneProject.moveYDown A d n w).stepperY).filter
        DriverCall.isMutating
      = [.setMaxSpeed 4000, .setAcceleration 20000,
         .moveTo (A.add w.stepperY.currentPos (A.mul n d))]
    ∧ (issued w.stepperY (DroneProject.moveYUp A d n w).stepperY).filter
        DriverCall.isMutating
      = [.setMaxSpeed 4000, .setAcceleration 20000,
         .moveTo (A.sub w.stepperY.currentPos (A.mul n d))]
    ∧ (issued w.stepperX (DroneProject.moveXLeft A d n w).stepperX).filter
        DriverCall.isMutating
      = [.setMaxSpeed 4000, .setAcceleration 20000,
         .moveTo (A.add w.stepperX.currentPos (A.mul n d))]
    ∧ (issued w.stepperX (DroneProject.moveXRight A d n w).stepperX).filter
        DriverCall.isMutating
      = [.setMaxSpeed 4000, .setAcceleration 20000,
         .moveTo (A.sub w.stepperX.currentPos (A.mul n d))]
    ∧ (w.stepperY.currentPos = 1000 →
        (issued w.stepperY (DroneProject.moveYUp A 200 3 w).stepperY).filter
            DriverCall.isMutating
          = [.setMaxSpeed 4000, .setAcceleration 20000, .moveTo 400]) := by
  refine ⟨?_, ?_, ?_, ?_, ?_⟩
  · simp [issued, DroneProject.moveYDown, applyFastProfile, AccelStepper.setMaxSpeed,
      AccelStepper.setAcceleration, AccelStepper.currentPosition, AccelStepper.moveTo,
      Serial.println,
      LongArith.ofInt, DriverCall.isMutating]
  · simp [issued, DroneProject.moveYUp, applyFastProfile, AccelStepper.setMaxSpeed,
      AccelStepper.setAcceleration, AccelStepper.currentPosition, AccelStepper.moveTo,
      Serial.println,
      LongArith.ofInt, DriverCall.isMutating]
  · simp [issued, DroneProject.moveXLeft, applyFastProfile, AccelStepper.setMaxSpeed,
      AccelStepper.setAcceleration, AccelStepper.currentPosition, AccelStepper.moveTo,
      Serial.println,
      LongArith.ofInt, DriverCall.isMutating]
  · simp [issued, DroneProject.moveXRight, applyFastProfile, AccelStepper.setMaxSpeed,
      AccelStepper.setAcceleration, AccelStepper.currentPosition, AccelStepper.moveTo,
      Serial.println,
      LongArith.ofInt, DriverCall.isMutating]
  · intro hp
    cases A <;>
      simp [issued, DroneProject.moveYUp, applyFastProfile, AccelStepper.setMaxSpeed,
        AccelStepper.setAcceleration, AccelStepper.currentPosition, AccelStepper.moveTo,
      Serial.println,
        LongArith.ofInt, LongArith.sub, LongArith.mul, LongArith.wrap,
        DriverCall.isMutating, hp]

/-- C3, instance: the scenario of the specification run on `sampleWorld`
(Y reports 1000) with `deltaSteps = 200`, in 32-bit `long` arithmetic. -/
theorem C3_fast_profile_witness :
    (0 : Int) ≤ 3 ∧
    (issued sampleWorld.stepperY
        (DroneProject.moveYUp .wrap32 200 3 sampleWorld).stepperY).filter
          DriverCall.isMutating
      = [.setMaxSpeed 4000, .setAcceleration 20000, .moveTo 400] :=
  ⟨by decide,
    (C3_fast_profile_then_moveTo .wrap32 200 3 sampleWorld (by decide)).2.2.2.2 rfl⟩

/-! ## C4: the default-profile copy leaves the motion limits alone -/

/-- C4. In the Reset/startPosition copy, for every state, every step count
`n ≥ 0`, every `deltaSteps = d` and every interpretation of `long`, each
operation issues to its axis driver exactly `currentPosition()` and
`moveTo(target)` (no `setMaxSpeed`, no `setAcceleration`), leaves the driver's
max speed and acceleration as they were, and changes nothing of the driver but
its target (and the record of calls): putting the old target and the old
record back gives the old driver.  When the X driver reports -500 and
`d = 200`, `moveXLeft(2)` issues `moveTo(-100)` with the limits unmodified. -/
theorem C4_default_profile_frame (A : LongArith) (op : Op) (d n : Int) (w : World)
    (_hn : 0 ≤ n) :
    issued (w.stepper op.axis) ((exec .resetStartPosition A d op n w).stepper op.axis)
        = [.currentPosition,
           .moveTo (A.wrap ((w.stepper op.axis).currentPos + op.sign * A.mul n d))]
    ∧ ((exec .resetStartPosition A d op n w).stepper op.axis).maxSpeed
        = (w.stepper op.axis).maxSpeed
    ∧ ((exec .resetStartPosition A d op n w).stepper op.axis).acceleration
        = (w.stepper op.axis).acceleration
    ∧ { (exec .resetStartPosition A d op n w).stepper op.axis with
          targetPos := (w.stepper op.axis).targetPos,
          calls := (w.stepper op.axis).calls } = w.stepper op.axis
    ∧ (w.stepperX.currentPos = -500 →
        issued w.stepperX (Reset.moveXLeft A 200 2 w).stepperX
            = [.currentPosition, .moveTo (-100)]
          ∧ (Reset.moveXLeft A 200 2 w).stepperX.maxSpeed = w.stepperX.maxSpeed
          ∧ (Reset.moveXLeft A 200 2 w).stepperX.acceleration
              = w.stepperX.acceleration) := by
  refine ⟨?_, ?_, ?_, ?_, ?_⟩
  · cases op <;>
      simp [issued, exec, World.stepper, Op.axis, Op.sign, Reset.moveYDown, Reset.moveYUp,
        Reset.moveXLeft, Reset.moveXRight, AccelStepper.currentPosition,
        AccelStepper.moveTo, Serial.println,
        LongArith.add, LongArith.sub, LongArith.ofInt, sub_eq_add_neg]
  · cases op <;>
      simp [exec, World.stepper, Op.axis, Reset.moveYDown, Reset.moveYUp, Reset.moveXLeft,
        Reset.moveXRight, AccelStepper.currentPosition, AccelStepper.moveTo, Serial.println]
  · cases op <;>
      simp [exec, World.stepper, Op.axis, Reset.moveYDown, Reset.moveYUp, Reset.moveXLeft,
        Reset.moveXRight, AccelStepper.currentPosition, AccelStepper.moveTo, Serial.println]
  · cases op <;> rfl
  · intro hp
    refine ⟨?_, ?_, ?_⟩
    · cases A <;>
        simp [issued, Reset.moveXLeft, AccelStepper.currentPosition, AccelStepper.moveTo,
          Serial.println,
          LongArith.add, LongArith.mul, LongArith.ofInt, LongArith.wrap, hp]
    · simp [Reset.moveXLeft, AccelStepper.currentPosition, AccelStepper.moveTo, Serial.println]
    · simp [Reset.moveXLeft, AccelStepper.currentPosition, AccelStepper.moveTo, Serial.println]

/-- C4, instance: the scenario of the specification run on `sampleWorld`
(X reports -500, limits 1000 / 500) with `deltaSteps = 200`. -/
theorem C4_default_profile_witness :
    (0 : Int) ≤ 2 ∧
    issued sampleWorld.stepperX (Reset.moveXLeft .exact 200 2 sampleWorld).stepperX
      = [.currentPosition, .moveTo (-100)] ∧
    (Reset.moveXLeft .exact 200 2 sampleWorld).stepperX.maxSpeed = 1000 ∧
    (Reset.moveXLeft .exact 200 2 sampleWorld).stepperX.acceleration = 500 :=
  ⟨by decide,
    (C4_default_profile_frame .exact .moveXLeft 200 2 sampleWorld (by decide)).2.2.2.2 rfl⟩

/-! ## C5: applying the fast profile twice -/

/-- C5. For every driver state `s`, applying the fast profile twice leaves
the same max speed, acceleration, reported position and target as applying it
once; the two drivers differ in nothing but the record of calls received. -/
theorem C5_applyFastProfile_idempotent (s : AccelStepper) :
    (applyFastProfile (applyFastProfile s)).maxSpeed = (applyFastProfile s).maxSpeed
    ∧ (applyFastProfile (applyFastProfile s)).acceleration
        = (applyFastProfile s).acceleration
    ∧ (applyFastProfile (applyFastProfile s)).currentPos = (applyFastProfile s).currentPos
    ∧ (applyFastProfile (applyFastProfile s)).targetPos = (applyFastProfile s).targetPos
    ∧ { applyFastProfile (applyFastProfile s) with calls := (applyFastProfile s).calls }
        = applyFastProfile s
    ∧ (applyFastProfile s).maxSpeed = 4000
    ∧ (applyFastProfile s).acceleration = 20000 := by
  simp [applyFastProfile, AccelStepper.setMaxSpeed, AccelStepper.setAcceleration]

/-! ## C6: a driver fault during `moveTo` -/

/-- C8. In both copies, for every state, step count, `deltaSteps` and every
interpretation of `long`: `moveYDown` and `moveYUp` leave the whole X driver
(position, target, max speed, acceleration, calls received) as
it was, and `moveXLeft` and `moveXRight` leave the whole Y driver as it
was. -/
theorem C8_axes_independent (v : Variant) (A : LongArith) (d n : Int) (w : World) :
    (exec v A d .moveYDown n w).stepperX = w.stepperX
    ∧ (exec v A d .moveYUp n w).stepperX = w.stepperX
    ∧ (exec v A d .moveXLeft n w).stepperY = w.stepperY
    ∧ (exec v A d .moveXRight n w).stepperY = w.stepperY := by
  cases v <;>
    simp [exec, DroneProject.moveYDown, DroneProject.moveYUp, DroneProject.moveXLeft,
      DroneProject.moveXRight, Reset.moveYDown, Reset.moveYUp, Reset.moveXLeft,
      Reset.moveXRight, Serial.println]

/-! ## C9: the two copies command the same targets -/

/-- C9. For every state, step count `n` of either sign, `deltaSteps = d` and
every interpretation of `long` (exact, modulo `2^32`, modulo `2^64`), each operation of
the DroneProject copy equals the same operation of the Reset/startPosition
copy run after `applyFastProfile` on the axis driver.  So both copies end with
the same `moveTo` call, the same target and the same reported position on the
same driver, print the same line, and differ only in that the DroneProject
copy has set max speed 4000 and acceleration 20000 where the other copy left
both untouched. -/
theorem C9_copies_agree_on_targets (A : LongArith) (op : Op) (d n : Int) (w : World) :
    DroneProject.moveYDown A d n w
        = Reset.moveYDown A d n { w with stepperY := applyFastProfile w.stepperY }
    ∧ DroneProject.moveYUp A d n w
        = Reset.moveYUp A d n { w with stepperY := applyFastProfile w.stepperY }
    ∧ DroneProject.moveXLeft A d n w
        = Reset.moveXLeft A d n { w with stepperX := applyFastProfile w.stepperX }
    ∧ DroneProject.moveXRight A d n w
        = Reset.moveXRight A d n { w with stepperX := applyFastProfile w.stepperX }
    ∧ (issued (w.stepper op.axis) ((exec .droneProject A d op n w).stepper op.axis)).getLast?
        = (issued (w.stepper op.axis)
            ((exec .resetStartPosition A d op n w).stepper op.axis)).getLast?
    ∧ ((exec .droneProject A d op n w).stepper op.axis).targetPos
        = ((exec .resetStartPosition A d op n w).stepper op.axis).targetPos
    ∧ ((exec .droneProject A d op n w).stepper op.axis).currentPos
        = ((exec .resetStartPosition A d op n w).stepper op.axis).currentPos
    ∧ (exec .droneProject A d op n w).serial = (exec .resetStartPosition A d op n w).serial
    ∧ ((exec .droneProject A d op n w).stepper op.axis).maxSpeed = 4000
    ∧ ((exec .droneProject A d op n w).stepper op.axis).acceleration = 20000
    ∧ ((exec .resetStartPosition A d op n w).stepper op.axis).maxSpeed
        = (w.stepper op.axis).maxSpeed
    ∧ ((exec .resetStartPosition A d op n w).stepper op.axis).acceleration
        = (w.stepper op.axis).acceleration := by
  refine ⟨rfl, rfl, rfl, rfl, ?_, ?_, ?_, ?_, ?_, ?_, ?_, ?_⟩
  · cases op <;>
      simp [issued, exec, World.stepper, Op.axis, DroneProject.moveYDown,
        DroneProject.moveYUp, DroneProject.moveXLeft, DroneProject.moveXRight,
        Reset.moveYDown, Reset.moveYUp, Reset.moveXLeft, Reset.moveXRight,
        applyFastProfile, AccelStepper.setMaxSpeed, AccelStepper.setAcceleration,
        AccelStepper.currentPosition, AccelStepper.moveTo, Serial.println]
  · cases op <;>
      simp [exec, World.stepper, Op.axis, DroneProject.moveYDown,
        DroneProject.moveYUp, DroneProject.moveXLeft, DroneProject.moveXRight,
        Reset.moveYDown, Reset.moveYUp, Reset.moveXLeft, Reset.moveXRight,
        applyFastProfile, AccelStepper.setMaxSpeed, AccelStepper.setAcceleration,
        AccelStepper.currentPosition, AccelStepper.moveTo, Serial.println]
  · rw [exec_currentPos, exec_currentPos]
  · cases op <;>
      simp [exec, DroneProject.moveYDown,
        DroneProject.moveYUp, DroneProject.moveXLeft, DroneProject.moveXRight,
        Reset.moveYDown, Reset.moveYUp, Reset.moveXLeft, Reset.moveXRight, Serial.println]
  all_goals
    cases op <;>
      simp [exec, World.stepper, Op.axis, DroneProject.moveYDown,
        DroneProject.moveYUp, DroneProject.moveXLeft, DroneProject.moveXRight,
        Reset.moveYDown, Reset.moveYUp, Reset.moveXLeft, Reset.moveXRight,
        applyFastProfile, AccelStepper.setMaxSpeed, AccelStepper.setAcceleration,
        AccelStepper.currentPosition, AccelStepper.moveTo, Serial.println]

/-! ## C10: opposite directions cancel -/

/-- C10. Let the drivers report positions that are `long` values.  In either
copy and every interpretation of `long` (exact, or modulo `2^32`, or modulo
`2^64`), for every step count `n` and `deltaSteps = d`: if `moveYDown n` is
issued at position `p` and the Y driver then reaches the commanded target, a
following `moveYUp n` calls `moveTo p` and leaves target `p`; likewise for
`moveYUp` then `moveYDown`, and for `moveXLeft` / `moveXRight` on the X
driver. -/
theorem C10_opposite_directions_cancel (v : Variant) (A : LongArith) (d n : Int) (w : World)
    (hpY : A.fits w.stepperY.currentPos) (hpX : A.fits w.stepperX.currentPos) :
    (exec v A d .moveYUp n (exec v A d .moveYDown n w).arriveY).stepperY.targetPos
        = w.stepperY.currentPos
    ∧ (exec v A d .moveYDown n (exec v A d .moveYUp n w).arriveY).stepperY.targetPos
        = w.stepperY.currentPos
    ∧ (exec v A d .moveXRight n (exec v A d .moveXLeft n w).arriveX).stepperX.targetPos
        = w.stepperX.currentPos
    ∧ (exec v A d .moveXLeft n (exec v A d .moveXRight n w).arriveX).stepperX.targetPos
        = w.stepperX.currentPos
    ∧ (exec v A d .moveYUp n (exec v A d .moveYDown n w).arriveY).stepperY.calls.getLast?
        = some (.moveTo w.stepperY.currentPos)
    ∧ (exec v A d .moveYDown n (exec v A d .moveYUp n w).arriveY).stepperY.calls.getLast?
        = some (.moveTo w.stepperY.currentPos)
    ∧ (exec v A d .moveXRight n (exec v A d .moveXLeft n w).arriveX).stepperX.calls.getLast?
        = some (.moveTo w.stepperX.currentPos)
    ∧ (exec v A d .moveXLeft n (exec v A d .moveXRight n w).arriveX).stepperX.calls.getLast?
        = some (.moveTo w.stepperX.currentPos) := by
  have h1 := wrap_add_sub_cancel A w.stepperY.currentPos (A.mul n d) hpY
  have h2 := wrap_sub_add_cancel A w.stepperY.currentPos (A.mul n d) hpY
  have h3 := wrap_add_sub_cancel A w.stepperX.currentPos (A.mul n d) hpX
  have h4 := wrap_sub_add_cancel A w.stepperX.currentPos (A.mul n d) hpX
  cases v <;>
    simp [exec, World.arriveY, World.arriveX, AccelStepper.arrive, DroneProject.moveYDown,
      DroneProject.moveYUp, DroneProject.moveXLeft, DroneProject.moveXRight,
      Reset.moveYDown, Reset.moveYUp, Reset.moveXLeft, Reset.moveXRight,
      applyFastProfile, AccelStepper.setMaxSpeed, AccelStepper.setAcceleration,
      AccelStepper.currentPosition, AccelStepper.moveTo, Serial.println, LongArith.add,
      LongArith.sub, LongArith.ofInt, h1, h2, h3, h4]

/-- C10, instance: in 32-bit arithmetic with the Y driver at the largest
`long`, 2147483647, and `deltaSteps = 200`, `moveYDown(3)` wraps to target
-2147483049; once the driver is there, `moveYUp(3)` commands 2147483647
again. -/
theorem C10_opposite_directions_witness :
    LongArith.wrap32.fits 2147483647 ∧ LongArith.wrap32.fits (-500) ∧
    (Reset.moveYDown .wrap32 200 3 edgeWorld).stepperY.targetPos = -2147483049 ∧
    (exec .resetStartPosition .wrap32 200 .moveYUp 3
        (exec .resetStartPosition .wrap32 200 .moveYDown 3
          edgeWorld).arriveY).stepperY.targetPos
      = 2147483647 :=
  ⟨by decide, by decide, by decide,
    (C10_opposite_directions_cancel .resetStartPosition .wrap32 200 3 edgeWorld
      (by decide) (by decide)).1⟩

end Movement
